import Mathlib

/-!
Verification development for the baxter_pick_and_place repository.

We shallowly embed the Python sources:
  * src/baxter_pick_and_place/robot.py  (namespace PnP)
  * src/servoing/base.py                (namespace Servo)
  * src/vision/segmentation.py          (namespace Vision)

Python floats are modelled as exact rationals; numeric literals from the
source are written as the exact rational value of the corresponding float
(for example np.pi is the dyadic rational value of the 64-bit float pi).
Fallible Python code is modelled with Except over an error type mirroring
the Python exception classes that matter to the control flow.
-/

/-- Python exceptions that are relevant to the control flow of the sources:
only ValueError is ever caught (servoing/base.py line 170); everything else
propagates. -/
inductive PyErr where
  | valueError (msg : String)
  | attributeError (name : String)
  | keyError (msg : String)
  | genericExc (msg : String)
deriving DecidableEq

namespace PnP

/-- The 64-bit float value of np.pi, as an exact rational. -/
def piFloat : ℚ := 884279719003555 / 281474976710656

/-- Source robot.py, Robot.__init__: self._top_pose = [0.50, 0.00, 0.15, -pi, 0, 0]. -/
def topPose : List ℚ := [1/2, 0, 3/20, -piFloat, 0, 0]

/-- Source robot.py, Robot.__init__: self._N_TRIES = 2. -/
def nTries : ℤ := 2

/-- Source robot.py, Robot._perturbe_pose: given the six draws r (each produced by
np.random.random(), hence in [0,1)), build the perturbation list
[r0*0.02, r1*0.03, r2*0.02, r3*2/180, r4*2/180, r5*2/180] and add it to the
pose with zip (element-wise, truncating at the shorter list, as Python zip
does). -/
def perturbePose (pose : List ℚ) (r : List ℚ) : List ℚ :=
  let perturbation : List ℚ :=
    [r.getD 0 0 * (2/100), r.getD 1 0 * (3/100), r.getD 2 0 * (2/100),
     r.getD 3 0 * (2/180), r.getD 4 0 * (2/180), r.getD 5 0 * (2/180)]
  List.zipWith (fun a b => a + b) pose perturbation

/-- Python truthiness of a list: non-empty lists are truthy. Used by the
retry loop of pick_and_place_object, whose condition tests the list returned
by _perturbe_pose. -/
def listTruthy (l : List ℚ) : Bool := !l.isEmpty

/-- Source robot.py, pick_and_place_object lines 203-209: the retry loop
  n_tries = self._N_TRIES
  while n_tries > 0:
      n_tries -= 1
      if self._perturbe_pose(self._top_pose): n_tries = -1
modelled with fuel (the loop runs at most nTries+1 iterations, fuel 3
suffices); draws k gives the random draws consumed by the k-th iteration.
Returns the final value of n_tries. -/
def retryLoop (draws : ℕ → List ℚ) : ℕ → ℤ → ℕ → ℤ
  | 0, n, _ => n
  | fuel + 1, n, k =>
    if n > 0 then
      if listTruthy (perturbePose topPose (draws k)) then
        retryLoop draws fuel (-1) (k + 1)
      else
        retryLoop draws fuel (n - 1) (k + 1)
    else n

/-- Source robot.py, pick_and_place_object lines 200-212 (after the trigger dummy):
  if not self._move_to_pose(self._top_pose):
      n_tries = self._N_TRIES
      while n_tries > 0: n_tries -= 1; if self._perturbe_pose(...): n_tries = -1
      if not n_tries == -1: return False
  return self._try_object()
moveTopOk is the stubbed result of the single _move_to_pose call, draws the
random source, tryResult the stubbed result of _try_object.  Returns the
value returned by pick_and_place_object paired with whether _try_object was
called. -/
def pickAndPlaceObject (moveTopOk : Bool) (draws : ℕ → List ℚ)
    (tryResult : Bool) : Bool × Bool :=
  if !moveTopOk then
    let n := retryLoop draws 3 nTries 0
    if !(n == -1) then (false, false)
    else (tryResult, true)
  else (tryResult, true)

/-- Calibration parameters, robot.py _perform_setup lines 151-160; dist is
the computed average, the rest are the fixed empirical constants
mpp = 0.0025, x_offset = 0.01, y_offset = -0.02, z_offset = 0.02+0.01+0.0. -/
structure CamPars where
  dist : ℚ
  mpp : ℚ
  xOffset : ℚ
  yOffset : ℚ
  zOffset : ℚ
deriving DecidableEq

/-- Source robot.py, _perform_setup line 134: pose = [0.60, 0.20, 0.0, -pi, 0, 0]. -/
def calibPose : List ℚ := [3/5, 1/5, 0, -piFloat, 0, 0]

/-- One iteration of the calibration loop consumes: the random draws fed to
_perturbe_pose, the stubbed result of _move_to_pose(p), and the stubbed
range-sensor reading sensor.state() (only read when the move succeeded). -/
structure CalEvent where
  draws : List ℚ
  moveOk : Bool
  reading : ℚ
deriving DecidableEq

/-- Source robot.py line 146: the recorded sample d/1000.0 - p[2], where p is the
perturbed pose commanded in this iteration. -/
def calSample (e : CalEvent) : ℚ :=
  e.reading / 1000 - (perturbePose calibPose e.draws).getD 2 0

/-- An iteration records a sample exactly when the move succeeded and the
reading is below the validity ceiling 65000 (robot.py lines 143-145). -/
def calAccept (e : CalEvent) : Bool :=
  e.moveOk && decide (e.reading < 65000)

/-- Source robot.py, _perform_setup lines 141-150: the loop
  while len(dist) < n_calibrations:
      p = self._perturbe_pose(pose)
      if self._move_to_pose(p):
          d = sensor.state()
          if d < 65000: dist.append(d/1000.0 - p[2])
driven by the finite stream of events; none models the stream running out
before n samples were collected (the real loop would keep waiting). -/
def collectDist (n : ℕ) : List CalEvent → List ℚ → Option (List ℚ)
  | [], acc => if acc.length < n then none else some acc
  | e :: rest, acc =>
    if acc.length < n then
      if e.moveOk then
        if e.reading < 65000 then collectDist n rest (acc ++ [calSample e])
        else collectDist n rest acc
      else collectDist n rest acc
    else some acc

/-- Source robot.py, _perform_setup: n_calibrations = 10; cam_pars['dist'] is
np.mean(dist) = sum/length; the offsets are the fixed constants of lines
155-160. -/
def performSetup (events : List CalEvent) : Option CamPars :=
  (collectDist 10 events []).map fun dist =>
    { dist := dist.sum / dist.length
      mpp := 1/400
      xOffset := 1/100
      yOffset := -(1/50)
      zOffset := 2/100 + 1/100 + 0 }

/-- Source robot.py, _pixel2position lines 273-284:
  w, h = self._camera.resolution           (set to (1280, 800) in __init__)
  x = (px[1] - h/2)*mpp*dist + endpoint[0] + x_offset
  y = (px[0] - w/2)*mpp*dist + endpoint[1] + y_offset
  z = dist - z_offset
  return [x, y, z, 0., 0., 0.]
h/2 and w/2 are Python 2 integer divisions of ints, modelled by Nat
division. px is the pixel (px0, px1) as a pair of floats. -/
def pixel2position (res : ℕ × ℕ) (pars : CamPars) (endpoint : List ℚ)
    (px : ℚ × ℚ) : List ℚ :=
  let w := res.1
  let h := res.2
  [(px.2 - ((h / 2 : ℕ) : ℚ)) * pars.mpp * pars.dist + endpoint.getD 0 0 + pars.xOffset,
   (px.1 - ((w / 2 : ℕ) : ℚ)) * pars.mpp * pars.dist + endpoint.getD 1 0 + pars.yOffset,
   pars.dist - pars.zOffset, 0, 0, 0]

/-- The camera resolution set in Robot.__init__ line 102. -/
def cameraResolution : ℕ × ℕ := (1280, 800)

end PnP

namespace Servo

/-- A six component Cartesian pose [x, y, z, roll, pitch, yaw] as used by the
servoing code (lists in the Python source, element-wise zip addition). -/
structure Pose6 where
  x : ℚ
  y : ℚ
  z : ℚ
  roll : ℚ
  pitch : ℚ
  yaw : ℚ
deriving DecidableEq

/-- A rotated rectangle ((cx, cy), (w, h), alpha) as returned by
mask_to_rroi. -/
structure RRoi where
  cx : ℚ
  cy : ℚ
  sw : ℚ
  sh : ℚ
  angle : ℚ
deriving DecidableEq

/-- The detection record handed back by the segmentation collaborator, as
consumed by _find_rotated_enclosing_rect: the identifier, the score and the
optional mask (the box is not read by the servoing code). -/
structure DetRec (Mask : Type) where
  id : String
  score : ℚ
  mask : Option Mask
deriving DecidableEq

/-- Call counters instrumenting the collaborator services: segmentation
requests, inverse kinematics requests and move commands. -/
structure Stats where
  segCalls : ℕ
  ikCalls : ℕ
  moveCalls : ℕ
deriving DecidableEq

/-- The zero counters at servo entry. -/
def stats0 : Stats := ⟨0, 0, 0⟩

/-- The robot abstraction handle consumed by servoing/base.py (the hardware
module itself is outside this repository).  Python attribute access is
explicit: attrs lists the attribute names present on the object, and every
dotted access first checks membership (raising AttributeError otherwise,
exactly as Python does).  The per-arm camera collection is modelled by the
two functions camerasMpp / camerasCollect; ik and moveTo may raise. -/
structure RobotH (Img Config : Type) where
  attrs : List String
  camerasMpp : String → ℚ
  camerasCollect : String → Img
  endpointPose : String → Pose6
  ik : String → Pose6 → Except PyErr Config
  moveTo : Config → Except PyErr Unit

/-- Python getattr on the robot handle: ok when the attribute exists,
AttributeError otherwise. -/
def RobotH.getattrCheck {Img Config : Type} (r : RobotH Img Config)
    (name : String) : Except PyErr Unit :=
  if name ∈ r.attrs then Except.ok () else Except.error (PyErr.attributeError name)

/-- The segmentation collaborator: detect_object(image, object_id, threshold)
and detect_best(image, threshold). -/
structure SegI (Img Mask : Type) where
  detectObject : Img → String → ℚ → DetRec Mask
  detectBest : Img → ℚ → DetRec Mask

/-- Everything a Servoing instance closes over: the robot handle, the
segmentation module, the mask_to_rroi conversion (vision module, not under
src/), the estimate_distance strategy (left NotImplementedError in the base
class, supplied by subclasses), the image shape (h, w) accessor and the
squared tolerance.

Note on tolerances and errors: the source computes
camera_error = sqrt(dx^2+dy^2) * pixel_to_camera_factor and compares it with
self._tolerance.  Square roots leave ℚ, so this embedding tracks the SQUARE
of every camera error and the square of the tolerance (tolSq); since both
the factor and the tolerance are nonnegative in every scenario considered,
the comparisons agree with the source. -/
structure ServoCtx (Img Mask Config : Type) where
  robot : RobotH Img Config
  seg : SegI Img Mask
  maskToRroi : Mask → RRoi
  estimateDistance : String → RRoi → String → ℚ
  imgShape : Img → ℕ × ℕ
  tolSq : ℚ

variable {Img Mask Config : Type}

/-- Source servoing/base.py line 147: kp = 0.7, the proportional control gain. -/
def kp : ℚ := 7/10

/-- Source servoing/base.py, _find_rotated_enclosing_rect lines 69-84: detect_best
for the special identifier hand, detect_object otherwise, both with
threshold 0.8; if the mask is present convert it with mask_to_rroi, else
raise ValueError.  (The draw_rroi call and the visualization publish mutate
only the published image and are omitted.)  The segmentation call counter is
incremented. -/
def findRotatedEnclosingRect (C : ServoCtx Img Mask Config) (img : Img)
    (objectId : String) (s : Stats) : Except PyErr RRoi × Stats :=
  let det := if objectId = "hand" then C.seg.detectBest img (4/5)
             else C.seg.detectObject img objectId (4/5)
  let s := { s with segCalls := s.segCalls + 1 }
  match det.mask with
  | some m => (Except.ok (C.maskToRroi m), s)
  | none =>
    (Except.error (PyErr.valueError ("Segmentation of " ++ det.id ++ " failed!")), s)

/-- Source servoing/base.py, _pixel_to_camera_factor lines 108-111:
robot.cameras[arm].meters_per_pixel * estimate_distance(arm, rroi, object_id);
the cameras attribute access may raise AttributeError. -/
def pixelToCameraFactor (C : ServoCtx Img Mask Config) (arm objectId : String)
    (r : RRoi) : Except PyErr ℚ :=
  match C.robot.getattrCheck "cameras" with
  | Except.error e => Except.error e
  | Except.ok _ =>
    Except.ok (C.robot.camerasMpp arm * C.estimateDistance objectId r arm)

/-- Source servoing/base.py, _error line 126: the pixel offset
(w//2 - cx, h//2 - cy) between image center and detected center; the image
size comes as (h, w) and the integer halving is Python floor division. -/
def pixelDelta (hw : ℕ × ℕ) (r : RRoi) : ℚ × ℚ :=
  (((hw.2 / 2 : ℕ) : ℚ) - r.cx, ((hw.1 / 2 : ℕ) : ℚ) - r.cy)

/-- Source servoing/base.py, _error lines 125-130, squared (see ServoCtx): the
source returns sqrt(dx^2+dy^2) * p2c_factor; this definition returns its
square (dx^2+dy^2) * p2c_factor^2. -/
def errorSq (C : ServoCtx Img Mask Config) (hw : ℕ × ℕ) (arm objectId : String)
    (r : RRoi) : Except PyErr ℚ :=
  let d := pixelDelta hw r
  match pixelToCameraFactor C arm objectId r with
  | Except.error e => Except.error e
  | Except.ok f => Except.ok ((d.1 * d.1 + d.2 * d.2) * (f * f))

/-- Source servoing/base.py, _iterate lines 157-158: the proportional correction
dx, dy = [(b - a)*p2c_factor*kp for a, b in zip((w//2, h//2), rroi[0])],
that is dx = (cx - w//2)*f*kp and dy = (cy - h//2)*f*kp (image size given as
(h, w)). -/
def correctionDelta (hw : ℕ × ℕ) (r : RRoi) (f : ℚ) : ℚ × ℚ :=
  ((r.cx - ((hw.2 / 2 : ℕ) : ℚ)) * f * kp,
   (r.cy - ((hw.1 / 2 : ℕ) : ℚ)) * f * kp)

/-- Source servoing/base.py, _iterate line 161: the new target pose
pose = [a + b for a, b in zip(pose, [dx, dy, 0, 0, 0, rroi[2]])]. -/
def targetPose (pose : Pose6) (d : ℚ × ℚ) (angle : ℚ) : Pose6 :=
  { pose with x := pose.x + d.1, y := pose.y + d.2, yaw := pose.yaw + angle }

/-- Source servoing/base.py, _iterate lines 162-169: the body of the try block
(cfg = inverse_kinematics; move_to(cfg); rroi = find rect; error), with the
ik and move call counters incremented before the respective calls. -/
def iterateTry (C : ServoCtx Img Mask Config) (hw : ℕ × ℕ)
    (arm objectId : String) (img : Img) (pose : Pose6) (s : Stats) :
    Except PyErr (RRoi × ℚ) × Stats :=
  let s := { s with ikCalls := s.ikCalls + 1 }
  match C.robot.ik arm pose with
  | Except.error e => (Except.error e, s)
  | Except.ok cfg =>
    let s := { s with moveCalls := s.moveCalls + 1 }
    match C.robot.moveTo cfg with
    | Except.error e => (Except.error e, s)
    | Except.ok _ =>
      match findRotatedEnclosingRect C img objectId s with
      | (Except.error e, s) => (Except.error e, s)
      | (Except.ok r, s) =>
        match errorSq C hw arm objectId r with
        | Except.error e => (Except.error e, s)
        | Except.ok e2 => (Except.ok (r, e2), s)

/-- Source servoing/base.py, _iterate lines 132-172: collect an image from
cameras[arm] (the cameras attribute access may raise), measure the error; if
it exceeds the tolerance build the corrected target pose and run the try
block, where ONLY a ValueError is caught (logged, correction step skipped,
stale rectangle and the already-measured error returned); any other
exception propagates.  Errors are compared via their squares (see
ServoCtx). -/
def iterate (C : ServoCtx Img Mask Config) (arm objectId : String) (r : RRoi)
    (s : Stats) : Except PyErr (RRoi × ℚ) × Stats :=
  match C.robot.getattrCheck "cameras" with
  | Except.error e => (Except.error e, s)
  | Except.ok _ =>
    let img := C.robot.camerasCollect arm
    let hw := C.imgShape img
    match errorSq C hw arm objectId r with
    | Except.error e => (Except.error e, s)
    | Except.ok e2 =>
      if e2 > C.tolSq then
        match pixelToCameraFactor C arm objectId r with
        | Except.error e => (Except.error e, s)
        | Except.ok f =>
          let pose := targetPose (C.robot.endpointPose arm)
            (correctionDelta hw r f) r.angle
          match iterateTry C hw arm objectId img pose s with
          | (Except.ok re, s) => (Except.ok re, s)
          | (Except.error (PyErr.valueError _), s) => (Except.ok (r, e2), s)
          | (Except.error e, s) => (Except.error e, s)
      else (Except.ok (r, e2), s)

/-- Source servoing/base.py, servo lines 191-195: the while loop
  while camera_error > tolerance: rroi, camera_error = _iterate(...)
with fuel bounding the number of iterations (the source loop is unbounded);
none models running out of fuel. -/
def servoLoop (C : ServoCtx Img Mask Config) (arm objectId : String) :
    ℕ → RRoi → ℚ → Stats → Option (Except PyErr Bool × Stats)
  | fuel, r, e2, s =>
    if e2 > C.tolSq then
      match fuel with
      | 0 => none
      | fuel + 1 =>
        match iterate C arm objectId r s with
        | (Except.error e, s) => some (Except.error e, s)
        | (Except.ok (r', e2'), s) => servoLoop C arm objectId fuel r' e2' s
    else some (Except.ok true, s)

/-- Source servoing/base.py, servo lines 174-196:
  img = self._robot.camears[arm].collect_image()       (line 182, sic)
  try: rroi = _find_rotated_enclosing_rect(img, object_id)
  except ValueError: log; return False
  camera_error = 2*tolerance
  while camera_error > tolerance: rroi, camera_error = _iterate(...)
  return True
The first line reads the attribute named camears on the robot handle; when
it is absent the AttributeError propagates out of servo (nothing catches
it).  The initial error 2*tolerance is squared to 4*tolSq in this embedding
(see ServoCtx). -/
def servo (C : ServoCtx Img Mask Config) (fuel : ℕ) (arm objectId : String) :
    Option (Except PyErr Bool × Stats) :=
  match C.robot.getattrCheck "camears" with
  | Except.error e => some (Except.error e, stats0)
  | Except.ok _ =>
    let img := C.robot.camerasCollect arm
    match findRotatedEnclosingRect C img objectId stats0 with
    | (Except.error (PyErr.valueError _), s) => some (Except.ok false, s)
    | (Except.error e, s) => some (Except.error e, s)
    | (Except.ok r, s) => servoLoop C arm objectId fuel r (4 * C.tolSq) s

end Servo

namespace Vision

/-- Model of np.argmax over a one-dimensional array: index of the first occurrence of
the maximum.  Helper carrying the next index, best index and best value. -/
def argmaxAux : List ℚ → ℕ → ℕ → ℚ → ℕ
  | [], _, bi, _ => bi
  | x :: xs, i, bi, bv =>
    if x > bv then argmaxAux xs (i + 1) i x else argmaxAux xs (i + 1) bi bv

/-- Model of np.argmax over a one-dimensional array (0 on the empty array, on which
numpy would raise; theorems only use it on nonempty data). -/
def argmax : List ℚ → ℕ
  | [] => 0
  | x :: xs => argmaxAux xs 1 0 x

/-- The raw network output consumed by detect_object / detect_best: the
n_proposals x n_classes score matrix and the per-proposal boxes and mask
activations (class 0 is the background). -/
structure MncOut (Box Mask : Type) where
  scores : List (List ℚ)
  boxes : List Box
  masks : List Mask

/-- The detection dictionary returned by detect_object / detect_best:
{'id', 'score', 'box', 'mask'}. -/
structure Detection (Box MaskImg : Type) where
  id : String
  score : ℚ
  box : Option Box
  mask : Option MaskImg
deriving DecidableEq

/-- Source vision/segmentation.py, detect_object lines 213-253:
  if object_id not in self._classes: raise KeyError(...)
  cls_scores = scores[:, cls_idx]; best_idx = argmax(cls_scores)
  best_score = cls_scores[best_idx]; best_box = boxes[best_idx]
  best_mask = _mask_image_from_mask(masks[best_idx], best_box, ...)
  if best_score > threshold: return {..., 'box': best_box, 'mask': best_mask}
  return {..., 'box': None, 'mask': None}
The cv2-based raster conversion _mask_image_from_mask is external image
code, abstracted by the function maskImage; out-of-range numpy indexing is
modelled with default values (theorems are invariant under them). -/
def detectObject {Box Mask MaskImg : Type} [Inhabited Box] [Inhabited Mask]
    (classes : List String) (out : MncOut Box Mask)
    (maskImage : Mask → Box → MaskImg) (objectId : String) (threshold : ℚ) :
    Except PyErr (Detection Box MaskImg) :=
  if objectId ∈ classes then
    let clsIdx := classes.indexOf objectId
    let clsScores := out.scores.map (fun row => row.getD clsIdx 0)
    let bestIdx := argmax clsScores
    let bestScore := clsScores.getD bestIdx 0
    let bestBox := out.boxes.getD bestIdx default
    let bestMask := maskImage (out.masks.getD bestIdx default) bestBox
    if bestScore > threshold then
      Except.ok ⟨objectId, bestScore, some bestBox, some bestMask⟩
    else
      Except.ok ⟨objectId, bestScore, none, none⟩
  else
    Except.error (PyErr.keyError ("Object " ++ objectId ++
      " is not contained in the defined set of objects!"))

/-- Source vision/segmentation.py, detect_best lines 255-291:
  best_proposal, best_class = np.unravel_index(scores[:, 1:].argmax(),
                                               scores[:, 1:].shape)
  best_class += 1
  best_score = scores[best_proposal, best_class]; ...
  if best_score > threshold: return {..., 'box': best_box, 'mask': best_mask}
  return {..., 'box': None, 'mask': None}
The flattened argmax over the score matrix with the background column
dropped is unravelled with the row width nClasses - 1 (numpy arrays are
rectangular; nClasses is the uniform row length of out.scores). -/
def detectBest {Box Mask MaskImg : Type} [Inhabited Box] [Inhabited Mask]
    (classes : List String) (nClasses : ℕ) (out : MncOut Box Mask)
    (maskImage : Mask → Box → MaskImg) (threshold : ℚ) :
    Detection Box MaskImg :=
  let flat := (out.scores.map (fun row => row.drop 1)).flatten
  let flatIdx := argmax flat
  let bestProposal := flatIdx / (nClasses - 1)
  let bestClass := flatIdx % (nClasses - 1) + 1
  let bestScore := (out.scores.getD bestProposal []).getD bestClass 0
  let bestBox := out.boxes.getD bestProposal default
  let bestMask := maskImage (out.masks.getD bestProposal default) bestBox
  let bestObject := classes.getD bestClass ""
  if bestScore > threshold then
    ⟨bestObject, bestScore, some bestBox, some bestMask⟩
  else
    ⟨bestObject, bestScore, none, none⟩

end Vision

namespace Servo

/-- Build a concrete servoing context over trivial image/mask/configuration
types: a robot handle with the given attribute names, a segmentation stub
that always returns the given detection record, a mask conversion returning
the given rectangle, meters_per_pixel = 1, estimate_distance = 1, endpoint
pose at the origin, 800 x 1280 images, and the given squared tolerance.
ikRes is the constant result of every inverse kinematics request. -/
def mkCtx (attrs : List String) (det : DetRec Unit) (r : RRoi)
    (ikRes : Except PyErr Unit) (tolSq : ℚ) : ServoCtx Unit Unit Unit :=
  { robot :=
      { attrs := attrs
        camerasMpp := fun _ => 1
        camerasCollect := fun _ => ()
        endpointPose := fun _ => ⟨0, 0, 0, 0, 0, 0⟩
        ik := fun _ _ => ikRes
        moveTo := fun _ => Except.ok () }
    seg :=
      { detectObject := fun _ _ _ => det
        detectBest := fun _ _ => det }
    maskToRroi := fun _ => r
    estimateDistance := fun _ _ _ => 1
    imgShape := fun _ => (800, 1280)
    tolSq := tolSq }

/-- A standard robot handle (attribute cameras, no camears) whose
segmentation stub always detects the object centered exactly at the image
center (640, 400) of an 800 x 1280 image; tolerance 0.01 m (squared). -/
def ctxCentered : ServoCtx Unit Unit Unit :=
  mkCtx ["cameras"] ⟨"ball", 1, some ()⟩ ⟨640, 400, 10, 10, 0⟩
    (Except.ok ()) (1/10000)

/-- The context ctxCentered with the misspelled attribute also exposed, so that servo
gets past its first line and the intended behavior can be observed. -/
def ctxCenteredPatched : ServoCtx Unit Unit Unit :=
  mkCtx ["cameras", "camears"] ⟨"ball", 1, some ()⟩ ⟨640, 400, 10, 10, 0⟩
    (Except.ok ()) (1/10000)

/-- A standard robot handle whose segmentation stub never finds the object
(mask absent: the score 0.5 is below the 0.8 threshold). -/
def ctxNoDetection : ServoCtx Unit Unit Unit :=
  mkCtx ["cameras"] ⟨"ball", 1/2, none⟩ ⟨0, 0, 0, 0, 0⟩
    (Except.ok ()) (1/10000)

/-- The context ctxNoDetection with the misspelled attribute also exposed. -/
def ctxNoDetectionPatched : ServoCtx Unit Unit Unit :=
  mkCtx ["cameras", "camears"] ⟨"ball", 1/2, none⟩ ⟨0, 0, 0, 0, 0⟩
    (Except.ok ()) (1/10000)

/-- The message of the exception raised by robot.py _inverse_kinematics
line 380 when no valid joint configuration exists. -/
def ikFailMsg : String :=
  "ERROR - inverse kinematics - No valid joint configuration found"

/-- A handle (misspelled attribute exposed so that the correcting loop is
reachable) with an off-center detection at (0, 0) and an inverse kinematics
service that always fails the way robot.py _inverse_kinematics does: with a
generic Exception, not a ValueError. -/
def ctxIkFailure : ServoCtx Unit Unit Unit :=
  mkCtx ["cameras", "camears"] ⟨"ball", 1, some ()⟩ ⟨0, 0, 10, 10, 0⟩
    (Except.error (PyErr.genericExc ikFailMsg)) (1/10000)

/-- Like ctxIkFailure but with a succeeding inverse kinematics service. -/
def ctxOffCenter : ServoCtx Unit Unit Unit :=
  mkCtx ["cameras", "camears"] ⟨"ball", 1, some ()⟩ ⟨0, 0, 10, 10, 0⟩
    (Except.ok ()) (1/10000)

end Servo

namespace Vision

/-- Concrete network output for the detection invariant witness: one
proposal, classes background and ball, ball score 0.9. -/
def outW : MncOut Unit Unit :=
  { scores := [[1/10, 9/10]], boxes := [()], masks := [()] }

/-- Concrete class list for the detection invariant witness. -/
def classesW : List String := ["__background__", "ball"]

end Vision

namespace PnP

/-- Claim C1: the claimed retry policy does not exist in the code.  When the
single move to the top-down pose fails, pick_and_place_object still calls
_try_object (and hence attempts the grasp) and returns its result, for every
random source and every _try_object outcome: the retry loop tests the
truthiness of the list returned by _perturbe_pose (always a non-empty list)
instead of the result of a re-commanded move, so after one pass n_tries is
-1 and the attempt proceeds.  No second move is ever commanded
(pickAndPlaceObject consumes exactly one move result). -/
theorem pick_attempt_ignores_move_failure (draws : ℕ → List ℚ)
    (tryResult : Bool) :
    pickAndPlaceObject false draws tryResult = (tryResult, true) := by
  have htruthy : listTruthy (perturbePose topPose (draws 0)) = true := by
    simp [listTruthy, perturbePose, topPose]
  simp [pickAndPlaceObject, nTries, retryLoop, htruthy]

/-- Claim C9: at the camera resolution (1280, 800) set in Robot.__init__,
_pixel2position computes
x = (pixel.row - height/2)*mpp*dist + endpoint.x + x_offset,
y = (pixel.col - width/2)*mpp*dist + endpoint.y + y_offset,
z = dist - z_offset, zero orientation; and the computed x/y offset from
(endpoint + offset constant) doubles when the pixel offset from the image
center (640, 400) doubles. -/
theorem pixel2position_formula_and_linearity (pars : CamPars) (ep : List ℚ)
    (px : ℚ × ℚ) :
    pixel2position cameraResolution pars ep px =
      [(px.2 - 400) * pars.mpp * pars.dist + ep.getD 0 0 + pars.xOffset,
       (px.1 - 640) * pars.mpp * pars.dist + ep.getD 1 0 + pars.yOffset,
       pars.dist - pars.zOffset, 0, 0, 0] ∧
    (∀ dc dr : ℚ,
      (pixel2position cameraResolution pars ep (640 + 2*dc, 400 + 2*dr)).getD 0 0
          - (ep.getD 0 0 + pars.xOffset)
        = 2 * ((pixel2position cameraResolution pars ep (640 + dc, 400 + dr)).getD 0 0
          - (ep.getD 0 0 + pars.xOffset))) ∧
    (∀ dc dr : ℚ,
      (pixel2position cameraResolution pars ep (640 + 2*dc, 400 + 2*dr)).getD 1 0
          - (ep.getD 1 0 + pars.yOffset)
        = 2 * ((pixel2position cameraResolution pars ep (640 + dc, 400 + dr)).getD 1 0
          - (ep.getD 1 0 + pars.yOffset))) := by
  refine ⟨?_, ?_, ?_⟩
  · simp [pixel2position, cameraResolution]
  · intro dc dr
    simp [pixel2position, cameraResolution]
    ring
  · intro dc dr
    simp [pixel2position, cameraResolution]
    ring

/-- Claim C10: for every pose and every draw of the six uniform random
values in [0, 1), the pose returned by _perturbe_pose deviates from the
input per component by at most 0.02 m in x, 0.03 m in y, 0.02 m in z and
2/180 rad in each orientation component. -/
theorem perturbe_pose_bounds (p0 p1 p2 p3 p4 p5 r0 r1 r2 r3 r4 r5 : ℚ)
    (g0 : 0 ≤ r0) (l0 : r0 < 1) (g1 : 0 ≤ r1) (l1 : r1 < 1)
    (g2 : 0 ≤ r2) (l2 : r2 < 1) (g3 : 0 ≤ r3) (l3 : r3 < 1)
    (g4 : 0 ≤ r4) (l4 : r4 < 1) (g5 : 0 ≤ r5) (l5 : r5 < 1) :
    |(perturbePose [p0,p1,p2,p3,p4,p5] [r0,r1,r2,r3,r4,r5]).getD 0 0 - p0| ≤ 2/100 ∧
    |(perturbePose [p0,p1,p2,p3,p4,p5] [r0,r1,r2,r3,r4,r5]).getD 1 0 - p1| ≤ 3/100 ∧
    |(perturbePose [p0,p1,p2,p3,p4,p5] [r0,r1,r2,r3,r4,r5]).getD 2 0 - p2| ≤ 2/100 ∧
    |(perturbePose [p0,p1,p2,p3,p4,p5] [r0,r1,r2,r3,r4,r5]).getD 3 0 - p3| ≤ 2/180 ∧
    |(perturbePose [p0,p1,p2,p3,p4,p5] [r0,r1,r2,r3,r4,r5]).getD 4 0 - p4| ≤ 2/180 ∧
    |(perturbePose [p0,p1,p2,p3,p4,p5] [r0,r1,r2,r3,r4,r5]).getD 5 0 - p5| ≤ 2/180 := by
  refine ⟨?_, ?_, ?_, ?_, ?_, ?_⟩ <;>
    · simp [perturbePose]
      rw [abs_le]
      constructor <;> nlinarith

/-- Helper witness for claim C10 at a concrete pose and concrete draws. -/
theorem perturbe_pose_bounds_witness :
    |(perturbePose [1,2,3,4,5,6] [1/2,1/2,1/2,1/2,1/2,1/2]).getD 0 0 - 1| ≤ 2/100 ∧
    |(perturbePose [1,2,3,4,5,6] [1/2,1/2,1/2,1/2,1/2,1/2]).getD 1 0 - 2| ≤ 3/100 ∧
    |(perturbePose [1,2,3,4,5,6] [1/2,1/2,1/2,1/2,1/2,1/2]).getD 2 0 - 3| ≤ 2/100 ∧
    |(perturbePose [1,2,3,4,5,6] [1/2,1/2,1/2,1/2,1/2,1/2]).getD 3 0 - 4| ≤ 2/180 ∧
    |(perturbePose [1,2,3,4,5,6] [1/2,1/2,1/2,1/2,1/2,1/2]).getD 4 0 - 5| ≤ 2/180 ∧
    |(perturbePose [1,2,3,4,5,6] [1/2,1/2,1/2,1/2,1/2,1/2]).getD 5 0 - 6| ≤ 2/180 :=
  perturbe_pose_bounds 1 2 3 4 5 6 (1/2) (1/2) (1/2) (1/2) (1/2) (1/2)
    (by norm_num) (by norm_num) (by norm_num) (by norm_num) (by norm_num)
    (by norm_num) (by norm_num) (by norm_num) (by norm_num) (by norm_num)
    (by norm_num) (by norm_num)

/-- Helper: the calibration loop collects, in order, the samples of exactly
the accepted events (move succeeded and reading below 65000), stopping after
n - acc.length further samples. -/
theorem collectDist_characterization (n : ℕ) (events : List CalEvent) :
    ∀ (acc s : List ℚ), collectDist n events acc = some s →
      s = acc ++ (((events.filter calAccept).map calSample).take (n - acc.length)) := by
  induction events with
  | nil =>
    intro acc s h
    rw [collectDist] at h
    by_cases hlen : acc.length < n
    · simp [hlen] at h
    · simp [hlen] at h
      have : n - acc.length = 0 := by omega
      simp [this, ← h]
  | cons e rest ih =>
    intro acc s h
    rw [collectDist] at h
    by_cases hlen : acc.length < n
    · rw [if_pos hlen] at h
      by_cases hmv : e.moveOk
      · by_cases hrd : e.reading < 65000
        · rw [if_pos hmv, if_pos hrd] at h
          have hacc : calAccept e = true := by simp [calAccept, hmv, hrd]
          have := ih _ _ h
          rw [this]
          have hn : n - acc.length = (n - (acc.length + 1)) + 1 := by omega
          simp [hacc, hn, List.take_succ_cons, List.append_assoc]
        · rw [if_pos hmv, if_neg hrd] at h
          have hacc : calAccept e = false := by simp [calAccept, hrd]
          have := ih _ _ h
          rw [this, List.filter_cons_of_neg (by simp [hacc])]
      · rw [if_neg hmv] at h
        have hacc : calAccept e = false := by simp [calAccept, hmv]
        have := ih _ _ h
        rw [this, List.filter_cons_of_neg (by simp [hacc])]
    · rw [if_neg hlen] at h
      have : n - acc.length = 0 := by omega
      simp at h
      simp [this, ← h]

/-- Helper: when the calibration loop completes, it holds exactly n
samples. -/
theorem collectDist_length (n : ℕ) (events : List CalEvent) :
    ∀ (acc s : List ℚ), collectDist n events acc = some s →
      acc.length ≤ n → s.length = n := by
  induction events with
  | nil =>
    intro acc s h hle
    rw [collectDist] at h
    by_cases hlen : acc.length < n
    · simp [hlen] at h
    · simp [hlen] at h
      rw [← h]
      omega
  | cons e rest ih =>
    intro acc s h hle
    rw [collectDist] at h
    by_cases hlen : acc.length < n
    · rw [if_pos hlen] at h
      by_cases hmv : e.moveOk
      · by_cases hrd : e.reading < 65000
        · rw [if_pos hmv, if_pos hrd] at h
          have := ih _ _ h (by simp; omega)
          exact this
        · rw [if_pos hmv, if_neg hrd] at h
          exact ih _ _ h hle
      · rw [if_neg hmv] at h
        exact ih _ _ h hle
    · rw [if_neg hlen] at h
      simp at h
      rw [← h]
      omega

/-- Helper: with a sensor stub that always returns the fixed valid value d
and zero draws (so the commanded perturbed poses keep z = 0), _perform_setup
computes avg_distance = d/1000 exactly, alongside the fixed empirical
constants. -/
theorem performSetup_constant_stub (d : ℚ) (hd : d < 65000) :
    performSetup (List.replicate 10 ⟨[0,0,0,0,0,0], true, d⟩) =
      some ⟨d / 1000, 1/400, 1/100, -(1/50), 2/100 + 1/100 + 0⟩ := by
  have hrep : List.replicate 10 (⟨[0,0,0,0,0,0], true, d⟩ : CalEvent) =
      [⟨[0,0,0,0,0,0], true, d⟩, ⟨[0,0,0,0,0,0], true, d⟩,
       ⟨[0,0,0,0,0,0], true, d⟩, ⟨[0,0,0,0,0,0], true, d⟩,
       ⟨[0,0,0,0,0,0], true, d⟩, ⟨[0,0,0,0,0,0], true, d⟩,
       ⟨[0,0,0,0,0,0], true, d⟩, ⟨[0,0,0,0,0,0], true, d⟩,
       ⟨[0,0,0,0,0,0], true, d⟩, ⟨[0,0,0,0,0,0], true, d⟩] := rfl
  have hs : calSample ⟨[0,0,0,0,0,0], true, d⟩ = d / 1000 := by
    simp [calSample, perturbePose, calibPose]
  rw [hrep]
  simp [performSetup, collectDist, hd, hs]
  ring

/-- Claim C6: calibration accepts a reading exactly when the move succeeded
and the reading is below the validity ceiling 65000, each accepted sample is
reading/1000 - z of the commanded perturbed pose, avg_distance is the mean
of exactly 10 accepted samples, and with a sensor stub always returning the
fixed valid value d at poses with z = 0, avg_distance = d/1000 exactly. -/
theorem calibration_ten_sample_mean (events : List CalEvent) (s : List ℚ)
    (h : collectDist 10 events [] = some s) :
    s.length = 10 ∧
    s = ((events.filter calAccept).map calSample).take 10 ∧
    ∀ d : ℚ, d < 65000 →
      performSetup (List.replicate 10 ⟨[0,0,0,0,0,0], true, d⟩) =
        some ⟨d / 1000, 1/400, 1/100, -(1/50), 2/100 + 1/100 + 0⟩ := by
  refine ⟨collectDist_length 10 events [] s h (by simp), ?_, ?_⟩
  · have := collectDist_characterization 10 events [] s h
    simpa using this
  · intro d hd
    exact performSetup_constant_stub d hd

/-- Helper witness for claim C6 at a concrete event stream (ten accepted
events with reading 500 at z = 0, giving ten samples of 0.5 m). -/
theorem calibration_ten_sample_mean_witness :
    ((List.replicate 10 ((1:ℚ)/2)).length = 10 ∧
     List.replicate 10 ((1:ℚ)/2) =
       (((List.replicate 10 (⟨[0,0,0,0,0,0], true, 500⟩ : CalEvent)).filter
         calAccept).map calSample).take 10 ∧
     ∀ d : ℚ, d < 65000 →
       performSetup (List.replicate 10 ⟨[0,0,0,0,0,0], true, d⟩) =
         some ⟨d / 1000, 1/400, 1/100, -(1/50), 2/100 + 1/100 + 0⟩) :=
  calibration_ten_sample_mean
    (List.replicate 10 ⟨[0,0,0,0,0,0], true, 500⟩)
    (List.replicate 10 (1/2))
    (by norm_num [List.replicate, collectDist, calSample, perturbePose, calibPose])

end PnP

namespace Servo

/-- Claim C3: for every robot handle without an attribute named camears
(the handle spells it cameras, as every other access in the class does),
every arm, every object identifier and every iteration budget, servo
propagates AttributeError from its first statement, before any segmentation
request, inverse kinematics request or move command, and therefore never
returns its documented boolean success value. -/
theorem servo_always_raises_attribute_error {Img Mask Config : Type}
    (C : ServoCtx Img Mask Config) (fuel : ℕ) (arm objectId : String)
    (h : "camears" ∉ C.robot.attrs) :
    servo C fuel arm objectId =
      some (Except.error (PyErr.attributeError "camears"), stats0) := by
  simp [servo, RobotH.getattrCheck, h]

/-- Helper witness for claim C3 on a concrete standard handle. -/
theorem servo_always_raises_attribute_error_witness :
    servo ctxCentered 3 "right" "hand" =
      some (Except.error (PyErr.attributeError "camears"), stats0) :=
  servo_always_raises_attribute_error ctxCentered 3 "right" "hand" (by decide)

/-- Claim C5 (code bug record): with a standard robot handle (attribute
cameras, not camears) and a segmentation stub that fails to find the object,
servo does not return the intended typed failure False: it stops with
AttributeError at its first line, before the detection is even attempted
(all call counters still zero). -/
theorem servo_detection_failure_hits_attribute_typo :
    servo ctxNoDetection 5 "left" "ball" =
      some (Except.error (PyErr.attributeError "camears"), stats0) := by rfl

/-- Supporting evidence for claim C5: on a handle that additionally exposes
the misspelled attribute (so that line 182 succeeds), a failed initial
detection makes servo return False after exactly one segmentation request,
with no inverse kinematics request and no move command — the intended
behavior the typo makes unreachable. -/
theorem servo_detection_failure_intended_behavior :
    servo ctxNoDetectionPatched 5 "left" "ball" =
      some (Except.ok false, ⟨1, 0, 0⟩) := by rfl

/-- Claim C7 (code bug record): with a standard robot handle and a
segmentation stub whose detection is centered exactly at the image center,
servo does not return converged success: it stops with AttributeError at
its first line (all call counters still zero). -/
theorem servo_centered_detection_hits_attribute_typo :
    servo ctxCentered 5 "left" "ball" =
      some (Except.error (PyErr.attributeError "camears"), stats0) := by rfl

/-- Supporting evidence for claim C7: on a handle that additionally exposes
the misspelled attribute, a detection centered exactly at the image center
(640, 400) of the 800 x 1280 image makes servo return True with zero
inverse kinematics requests and zero move commands (one segmentation
request from the initial detection, one measuring iteration that is already
within tolerance). -/
theorem servo_centered_detection_intended_behavior :
    servo ctxCenteredPatched 5 "left" "ball" =
      some (Except.ok true, ⟨1, 0, 0⟩) := by
  simp [servo, ctxCenteredPatched, mkCtx, RobotH.getattrCheck,
    findRotatedEnclosingRect, servoLoop, iterate, errorSq,
    pixelToCameraFactor, pixelDelta, stats0]
  norm_num

/-- Claim C2 (counterexample): the claimed correction
(dx, dy) = (imageCenter - detectedCenter) * factor * kp is false on the
code.  At image size (h, w) = (800, 1280), detected center (0, 0), factor 1
and the zero endpoint pose, the x component of the pose built by the
correcting step is -448, not 0 + (1280//2 - 0) * 1 * kp = 448. -/
theorem lateral_correction_sign_counterexample :
    (targetPose ⟨0, 0, 0, 0, 0, 0⟩
        (correctionDelta (800, 1280) ⟨0, 0, 10, 10, 0⟩ 1) 0).x ≠
      0 + (((1280 / 2 : ℕ) : ℚ) - 0) * 1 * kp := by
  norm_num [targetPose, correctionDelta, kp]

/-- Claim C2 (amended): in a correcting iteration (measured error above the
tolerance), the pose submitted to the try block — and hence to inverse
kinematics — equals the current endpoint pose plus
((cx - w//2)*f*kp, (cy - h//2)*f*kp, 0, 0, 0, angle), i.e. the lateral
correction is (detectedCenter - imageCenter) * pixelToCameraFactor * kp
with kp = 0.7, and the rectangle angle is added to the yaw unscaled. -/
theorem correcting_step_submits_detected_minus_center_pose
    {Img Mask Config : Type} (C : ServoCtx Img Mask Config)
    (arm objectId : String) (r : RRoi) (s : Stats) (e2 f : ℚ)
    (hcam : RobotH.getattrCheck C.robot "cameras" = Except.ok ())
    (herr : errorSq C (C.imgShape (C.robot.camerasCollect arm)) arm objectId r
      = Except.ok e2)
    (hgt : e2 > C.tolSq)
    (hf : pixelToCameraFactor C arm objectId r = Except.ok f) :
    iterate C arm objectId r s =
      (match iterateTry C (C.imgShape (C.robot.camerasCollect arm)) arm objectId
          (C.robot.camerasCollect arm)
          ⟨(C.robot.endpointPose arm).x
             + (r.cx - (((C.imgShape (C.robot.camerasCollect arm)).2 / 2 : ℕ) : ℚ)) * f * (7/10),
           (C.robot.endpointPose arm).y
             + (r.cy - (((C.imgShape (C.robot.camerasCollect arm)).1 / 2 : ℕ) : ℚ)) * f * (7/10),
           (C.robot.endpointPose arm).z,
           (C.robot.endpointPose arm).roll,
           (C.robot.endpointPose arm).pitch,
           (C.robot.endpointPose arm).yaw + r.angle⟩ s with
       | (Except.ok re, s') => (Except.ok re, s')
       | (Except.error (PyErr.valueError _), s') => (Except.ok (r, e2), s')
       | (Except.error e, s') => (Except.error e, s')) := by
  simp only [iterate, hcam, herr]
  rw [if_pos hgt]
  simp only [hf]
  rfl

/-- Helper witness for the amended claim C2 on a concrete context: detected
center (0, 0) on an 800 x 1280 image, factor 1, zero endpoint pose. -/
theorem correcting_step_submits_detected_minus_center_pose_witness :
    iterate ctxOffCenter "left" "ball" ⟨0, 0, 10, 10, 0⟩ stats0 =
      (match iterateTry ctxOffCenter (800, 1280) "left" "ball" ()
          ⟨0 + (0 - (((1280 / 2 : ℕ)) : ℚ)) * 1 * (7/10),
           0 + (0 - (((800 / 2 : ℕ)) : ℚ)) * 1 * (7/10),
           0, 0, 0, 0 + 0⟩ stats0 with
       | (Except.ok re, s') => (Except.ok re, s')
       | (Except.error (PyErr.valueError _), s') =>
         (Except.ok (⟨0, 0, 10, 10, 0⟩, 569600), s')
       | (Except.error e, s') => (Except.error e, s')) :=
  correcting_step_submits_detected_minus_center_pose ctxOffCenter "left" "ball"
    ⟨0, 0, 10, 10, 0⟩ stats0 569600 1
    (by rfl)
    (by norm_num [errorSq, pixelToCameraFactor, pixelDelta, ctxOffCenter,
      mkCtx, RobotH.getattrCheck])
    (by norm_num [ctxOffCenter, mkCtx])
    (by norm_num [pixelToCameraFactor, ctxOffCenter, mkCtx, RobotH.getattrCheck])

/-- Claim C4 (counterexample): the claim that a kinematics no-valid-
configuration failure is never escalated to the caller of servo is false.
With a context whose inverse kinematics always fails the way robot.py
_inverse_kinematics does — raising a generic Exception, not a ValueError —
and an off-center detection, servo propagates that exception to its caller
(after one segmentation and one kinematics request, no move). -/
theorem ik_failure_escalates_counterexample :
    servo ctxIkFailure 5 "left" "ball" =
      some (Except.error (PyErr.genericExc ikFailMsg), ⟨1, 1, 0⟩) := by
  simp [servo, ctxIkFailure, mkCtx, RobotH.getattrCheck,
    findRotatedEnclosingRect, servoLoop, iterate, errorSq,
    pixelToCameraFactor, pixelDelta, iterateTry, targetPose, correctionDelta,
    kp, stats0]
  norm_num

/-- Claim C4 (amended): in a correcting iteration whose inverse kinematics
request fails, the except ValueError clause of _iterate catches the failure
only when it is a ValueError — then the step is skipped and the loop
continues with the stale rectangle and the error measured before the
correction; any other exception (in particular the generic Exception raised
by robot.py _inverse_kinematics when no valid configuration exists)
propagates out of the iteration and out of the servo loop to the caller of
servo. -/
theorem iterate_catches_only_value_error {Img Mask Config : Type}
    (C : ServoCtx Img Mask Config) (arm objectId : String) (r : RRoi)
    (s : Stats) (e2 f : ℚ) (err : PyErr)
    (hcam : RobotH.getattrCheck C.robot "cameras" = Except.ok ())
    (herr : errorSq C (C.imgShape (C.robot.camerasCollect arm)) arm objectId r
      = Except.ok e2)
    (hgt : e2 > C.tolSq)
    (hf : pixelToCameraFactor C arm objectId r = Except.ok f)
    (hik : C.robot.ik arm (targetPose (C.robot.endpointPose arm)
      (correctionDelta (C.imgShape (C.robot.camerasCollect arm)) r f) r.angle)
      = Except.error err) :
    iterate C arm objectId r s =
      ((match err with
        | PyErr.valueError _ => Except.ok (r, e2)
        | _ => Except.error err),
       { s with ikCalls := s.ikCalls + 1 }) ∧
    (∀ fuel, (∀ m, err ≠ PyErr.valueError m) →
      servoLoop C arm objectId (fuel + 1) r e2 s =
        some (Except.error err, { s with ikCalls := s.ikCalls + 1 })) := by
  have hiter : iterate C arm objectId r s =
      ((match err with
        | PyErr.valueError _ => Except.ok (r, e2)
        | _ => Except.error err),
       { s with ikCalls := s.ikCalls + 1 }) := by
    simp only [iterate, hcam, herr]
    rw [if_pos hgt]
    simp only [hf, iterateTry, hik]
    cases err <;> rfl
  refine ⟨hiter, ?_⟩
  intro fuel hne
  have hunf : servoLoop C arm objectId (fuel + 1) r e2 s =
      if e2 > C.tolSq then
        (match iterate C arm objectId r s with
         | (Except.error e, s') => some (Except.error e, s')
         | (Except.ok (r', e2'), s') => servoLoop C arm objectId fuel r' e2' s')
      else some (Except.ok true, s) := rfl
  rw [hunf, if_pos hgt, hiter]
  cases err with
  | valueError m => exact absurd rfl (hne m)
  | attributeError m => rfl
  | keyError m => rfl
  | genericExc m => rfl

/-- Helper witness for the amended claim C4 at the concrete ctxIkFailure
context, where inverse kinematics fails with the generic Exception message
of robot.py line 380. -/
theorem iterate_catches_only_value_error_witness :
    (iterate ctxIkFailure "left" "ball" ⟨0, 0, 10, 10, 0⟩ stats0 =
      ((match PyErr.genericExc ikFailMsg with
        | PyErr.valueError _ => Except.ok (⟨0, 0, 10, 10, 0⟩, 569600)
        | _ => Except.error (PyErr.genericExc ikFailMsg)), ⟨0, 1, 0⟩)) ∧
    (∀ fuel, (∀ m, PyErr.genericExc ikFailMsg ≠ PyErr.valueError m) →
      servoLoop ctxIkFailure "left" "ball" (fuel + 1) ⟨0, 0, 10, 10, 0⟩
          569600 stats0 =
        some (Except.error (PyErr.genericExc ikFailMsg), ⟨0, 1, 0⟩)) :=
  iterate_catches_only_value_error ctxIkFailure "left" "ball"
    ⟨0, 0, 10, 10, 0⟩ stats0 569600 1 (PyErr.genericExc ikFailMsg)
    (by rfl)
    (by norm_num [errorSq, pixelToCameraFactor, pixelDelta, ctxIkFailure,
      mkCtx, RobotH.getattrCheck])
    (by norm_num [ctxIkFailure, mkCtx])
    (by norm_num [pixelToCameraFactor, ctxIkFailure, mkCtx, RobotH.getattrCheck])
    (by rfl)

end Servo

namespace Vision

/-- Claim C8: for every network output, class list, identifier and
threshold, the detection records returned by detect_object and detect_best
have box and mask both present or both absent, present exactly when the
score strictly exceeds the caller-specified threshold; a below-threshold
score yields box = mask = None without raising (detect_object returns
normally whenever the identifier is a known class). -/
theorem detection_presence_invariant {Box Mask MaskImg : Type}
    [Inhabited Box] [Inhabited Mask] (classes : List String) (nClasses : ℕ)
    (out : MncOut Box Mask) (maskImage : Mask → Box → MaskImg)
    (objectId : String) (threshold : ℚ) :
    (∀ d, detectObject classes out maskImage objectId threshold = Except.ok d →
      ((d.box.isSome = true) ↔ d.score > threshold) ∧
      ((d.mask.isSome = true) ↔ d.score > threshold)) ∧
    (objectId ∈ classes →
      ∃ d, detectObject classes out maskImage objectId threshold = Except.ok d) ∧
    (((detectBest classes nClasses out maskImage threshold).box.isSome = true) ↔
      (detectBest classes nClasses out maskImage threshold).score > threshold) ∧
    (((detectBest classes nClasses out maskImage threshold).mask.isSome = true) ↔
      (detectBest classes nClasses out maskImage threshold).score > threshold) := by
  refine ⟨?_, ?_, ?_, ?_⟩
  · intro d h
    by_cases hm : objectId ∈ classes
    · simp only [detectObject, if_pos hm] at h
      split at h
      · rw [Except.ok.injEq] at h
        subst h
        simp_all
      · rw [Except.ok.injEq] at h
        subst h
        simp_all
    · simp [detectObject, hm] at h
  · intro hm
    simp only [detectObject, if_pos hm]
    split
    · exact ⟨_, rfl⟩
    · exact ⟨_, rfl⟩
  · simp only [detectBest]
    split_ifs with hc
    · simpa using hc
    · simpa using hc
  · simp only [detectBest]
    split_ifs with hc
    · simpa using hc
    · simpa using hc

/-- Helper witness for claim C8 at a concrete one-proposal network output
(classes background/ball, ball score 0.9, threshold 0.5). -/
theorem detection_presence_invariant_witness :
    ∃ d, detectObject classesW outW (fun _ _ => ()) "ball" (1/2) = Except.ok d ∧
      ((d.box.isSome = true) ↔ d.score > 1/2) ∧
      ((d.mask.isSome = true) ↔ d.score > 1/2) := by
  obtain ⟨h1, h2, _, _⟩ :=
    detection_presence_invariant classesW 2 outW (fun _ _ => ()) "ball" (1/2)
  obtain ⟨d, hd⟩ := h2 (by decide)
  exact ⟨d, hd, h1 d hd⟩

end Vision
